import Mathlib

/-!
Verification of the retriable scheduled-job execution core of a social-media
autopilot backend: the backoff policy and generic retry runner
(`packages/backend/src/utils/retry.ts`), the per-post job processor and
scheduler loop (the scheduled-posts cron module), and the executor
(`AutopilotService.executeScheduledPost`).

Modelling conventions:
* JavaScript numbers are modelled as exact rationals (`ℚ`) for the backoff
  arithmetic and as `ℤ`/`ℕ` for counters and timestamps.
* `Math.random()` is modelled as an explicit parameter `r` ranging over
  `[0, 1]`.
* Promise rejection / `throw` is modelled with `Except`; the thrown error's
  message is a `String`.
* `await sleep(ms)` has no observable effect in the model beyond the recorded
  delay value; delays are recorded in an event trace where a claim needs them.
* The Sequelize store is a `List ScheduledPost`; `save` is modelled as the
  atomic full-row upsert the design documents for the job store.
-/

namespace V8

/-- Whether `pat` is an initial segment of `l`. -/
def listBeginsWith : List Char → List Char → Bool
  | [], _ => true
  | _ :: _, [] => false
  | p :: ps, c :: cs => p == c && listBeginsWith ps cs

/-- Whether `pat` occurs as a contiguous sublist of `l`. -/
def listContainsSub (pat : List Char) : List Char → Bool
  | [] => listBeginsWith pat []
  | c :: cs => listBeginsWith pat (c :: cs) || listContainsSub pat cs

/-- `lhs.includes(pat)` on JavaScript strings: `pat` occurs as a
substring. -/
def strContains (s pat : String) : Bool :=
  listContainsSub pat.data s.data

/-! ### BackoffPolicy (`calculateExponentialBackoff`, retry.ts lines 10-19) -/

/-- `calculateExponentialBackoff(attempt, baseDelay = 1000, maxDelay = 30000)`:
`delay = min(baseDelay * 2^attempt, maxDelay)`, then jitter
`Math.random() * 0.1 * delay` is added.  The random draw is the explicit
parameter `r`; the TS defaults (1000, 30000) are passed explicitly at every
call site of the model. -/
def calculateExponentialBackoff (attempt : ℕ) (baseDelay maxDelay r : ℚ) : ℚ :=
  let delay := min (baseDelay * 2 ^ attempt) maxDelay
  let jitter := r * (1 / 10) * delay
  delay + jitter

/-! ### RetryRunner (`retryWithBackoff`, retry.ts lines 31-67) -/

/-- Outcome of `retryWithBackoff`: a resolved value, a directly re-thrown
last error (the non-retriable branch at retry.ts lines 57-62), or the
aggregate error thrown after the loop (line 66), carrying the operation
label, the `maxAttempts` figure and the last underlying error message
(`none` when no attempt ever ran, rendered `undefined` by JS). -/
inductive RetryOutcome (T : Type) where
  | ok (v : T)
  | thrown (msg : String)
  | exhausted (label : String) (maxAttempts : ℤ) (lastMsg : Option String)
deriving DecidableEq

/-- The guard at retry.ts lines 58-60.  JavaScript parses
`A || B && C` as `A || (B && C)`, so `ENOTFOUND` matches on every attempt
while `ECONNREFUSED` matches only on the final attempt. -/
def nonRetriableAt (msg : String) (attempt : ℕ) (maxAttempts : ℤ) : Bool :=
  strContains msg "ENOTFOUND" ||
    (strContains msg "ECONNREFUSED" && decide ((attempt : ℤ) = maxAttempts - 1))

/-- The `for (let attempt = 0; attempt < maxAttempts; attempt++)` loop of
`retryWithBackoff`.  `fn` maps the attempt index to that invocation's
outcome; `fuel` is the number of remaining iterations, `lastErr` the
`lastError` variable, `calls` counts invocations of `fn` so far.  The
backoff sleep before retried attempts has no observable effect here.
Returns the outcome and the total number of `fn` invocations. -/
def retryLoop {T : Type} (fn : ℕ → Except String T) (maxAttempts : ℤ)
    (label : String) :
    (fuel : ℕ) → (attempt : ℕ) → (lastErr : Option String) → (calls : ℕ) →
    RetryOutcome T × ℕ
  | 0, _, lastErr, calls => (.exhausted label maxAttempts lastErr, calls)
  | fuel + 1, attempt, _, calls =>
    match fn attempt with
    | .ok v => (.ok v, calls + 1)
    | .error msg =>
      if nonRetriableAt msg attempt maxAttempts then
        (.thrown msg, calls + 1)
      else
        retryLoop fn maxAttempts label fuel (attempt + 1) (some msg) (calls + 1)

/-- `retryWithBackoff(fn, maxAttempts, operationName, baseDelay)`.
`maxAttempts` is kept as an integer so that non-positive arguments behave as
in JS (the loop body never runs). -/
def retryWithBackoff {T : Type} (fn : ℕ → Except String T) (maxAttempts : ℤ)
    (label : String) : RetryOutcome T × ℕ :=
  retryLoop fn maxAttempts label maxAttempts.toNat 0 none 0

/-! ### Data model (`ScheduledPost` with its `metadata` JSON blob) -/

/-- The `status` column of a `ScheduledPost`. -/
inductive Status where
  | pending
  | processing
  | published
  | failed
deriving DecidableEq

/-- The `metadata` JSON blob accumulated by the job processor
(`retryCount`, `lastError`, `lastRetryAt`, `finalError`, `failedAt`).
The blob itself may be `null` on a post, hence `Option RetryMeta` below. -/
structure RetryMeta where
  retryCount : ℕ
  lastError : Option String
  lastRetryAt : Option ℤ
  finalError : Option String
  failedAt : Option ℤ
deriving DecidableEq

/-- The joined `FacebookAccount` row, reduced to the two fields
`executeScheduledPost` reads. -/
structure FacebookAccount where
  pageId : Option String
  pageAccessToken : Option String
deriving DecidableEq

/-- A `ScheduledPost` row, reduced to the fields the scheduler core reads
and writes.  Timestamps are integers. -/
structure ScheduledPost where
  id : ℕ
  scheduledFor : ℤ
  status : Status
  metadata : Option RetryMeta
  errorMessage : Option String
  publishedContentId : Option String
  publishedAt : Option ℤ
  facebookAccount : FacebookAccount
deriving DecidableEq

/-- `post.metadata?.retryCount || 0`: the retry count the processor works
with (0 when the blob is `null`). -/
def effectiveRetryCount (p : ScheduledPost) : ℕ :=
  match p.metadata with
  | none => 0
  | some m => m.retryCount

/-- The job store: the `scheduled_posts` table as an ordered sequence of
rows. -/
abbrev Store := List ScheduledPost

/-- `await post.save()`: atomic upsert of the row with the instance's
current state (every row with the same id is replaced). -/
def saveToStore (store : Store) (p : ScheduledPost) : Store :=
  store.map (fun q => if q.id = p.id then p else q)

/-- `ScheduledPost.findByPk(postId)`. -/
def findByPk (store : Store) (postId : ℕ) : Option ScheduledPost :=
  store.find? (fun q => q.id == postId)

/-! ### Batch query (`startScheduledPostsJob`, scheduler lines 21-40) -/

/-- `MAX_RETRIES = 3` in the scheduler module. -/
def MAX_RETRIES : ℕ := 3

/-- The `where` clause of the batch query:
`(status = 'pending' OR (status = 'failed' AND (metadata IS NULL OR
metadata.retryCount < MAX_RETRIES))) AND scheduledFor <= now`. -/
def findDuePred (now : ℤ) (p : ScheduledPost) : Bool :=
  (decide (p.status = .pending) ||
    (decide (p.status = .failed) &&
      (match p.metadata with
       | none => true
       | some m => decide (m.retryCount < MAX_RETRIES)))) &&
  decide (p.scheduledFor ≤ now)

/-- `ScheduledPost.findAll({ where: ..., limit: 10 })`: the matching rows in
store order, truncated to 10.  The query has no `order` clause, so no
ordering beyond the store's own is imposed. -/
def findDue (store : Store) (now : ℤ) : List ScheduledPost :=
  (store.filter (findDuePred now)).take 10

/-! ### Executor (`AutopilotService.executeScheduledPost`, lines 381-441) -/

/-- `AutopilotService.executeScheduledPost(postId)`.  The Facebook publish
call's outcome is the parameter `pub` (`ok facebookId` or `error message`).
Returns the function's result (`ok` with the returned value, which is
`none` for the early `return null`, or `error` with the re-thrown error's
message) together with the store after its own writes.  Paths:
* post missing, or its stored status is not `pending`: warn and
  `return null`, no write;
* otherwise: write status `processing`; if the account lacks `pageId` or
  `pageAccessToken`, throw (caught below); else publish; on success write
  status `published` with `publishedContentId`/`publishedAt`; the catch
  block writes status `failed` with `errorMessage` and re-throws a wrapped
  error. -/
def executeScheduledPost (store : Store) (postId : ℕ)
    (pub : Except String String) (now : ℤ) :
    Except String (Option ScheduledPost) × Store :=
  match findByPk store postId with
  | none => (.ok none, store)
  | some post =>
    if post.status ≠ .pending then
      (.ok none, store)
    else
      let post1 := { post with status := .processing }
      let store1 := saveToStore store post1
      match post1.facebookAccount.pageId, post1.facebookAccount.pageAccessToken with
      | some _, some _ =>
        match pub with
        | .ok fbId =>
          let post2 := { post1 with
            status := .published
            publishedContentId := some fbId
            publishedAt := some now }
          (.ok (some post2), saveToStore store1 post2)
        | .error msg =>
          let post2 := { post1 with status := .failed, errorMessage := some msg }
          (.error ("Failed to execute scheduled post: " ++ msg),
            saveToStore store1 post2)
      | _, _ =>
        let msg := "Account not properly configured"
        let post2 := { post1 with status := .failed, errorMessage := some msg }
        (.error ("Failed to execute scheduled post: " ++ msg),
          saveToStore store1 post2)

/-! ### JobProcessor (`processScheduledPost`, scheduler lines 62-135) -/

/-- The `ScheduledPostError` thrown at the end of the processor's catch
block: wrapped message, post id, new retry count. -/
structure SchedError where
  message : String
  postId : ℕ
  retryCount : ℕ
deriving DecidableEq

/-- Observable events of one `processScheduledPost` run, in order:
the backoff sleep (with the delay it computes), each `post.save()` (with
the full instance state written), and the executor invocation. -/
inductive Ev where
  | sleep (d : ℚ)
  | save (p : ScheduledPost)
  | execCall (postId : ℕ)
deriving DecidableEq

/-- Result of one `processScheduledPost` run: normal return or thrown
`SchedError`, the store after all writes, and the event trace. -/
structure ProcResult where
  result : Except SchedError Unit
  store : Store
  trace : List Ev

/-- The catch block of `processScheduledPost` (scheduler lines 86-133),
entered with the error message `msg`, operating on the processor's
in-memory instance `post1` (status already `processing`), the original
metadata blob `meta0`, and the store as the executor left it.  Builds the
retry (`newRetryCount < MAX_RETRIES`) or terminal-failure update, saves
it, and throws `ScheduledPostError`. -/
def processCatch (store : Store) (post1 : ScheduledPost)
    (meta0 : Option RetryMeta) (retryCount : ℕ) (msg : String) (now : ℤ)
    (evs : List Ev) : ProcResult :=
  let newRetryCount := retryCount + 1
  if newRetryCount < MAX_RETRIES then
    let post2 := { post1 with
      status := .pending
      metadata := some {
        retryCount := newRetryCount
        lastError := some msg
        lastRetryAt := some now
        finalError := meta0.bind (fun m => m.finalError)
        failedAt := meta0.bind (fun m => m.failedAt) } }
    { result := .error {
        message := "Failed to publish scheduled post: " ++ msg
        postId := post1.id
        retryCount := newRetryCount }
      store := saveToStore store post2
      trace := evs ++ [Ev.save post2] }
  else
    let post2 := { post1 with
      status := .failed
      errorMessage := some msg
      metadata := some {
        retryCount := newRetryCount
        lastError := meta0.bind (fun m => m.lastError)
        lastRetryAt := meta0.bind (fun m => m.lastRetryAt)
        finalError := some msg
        failedAt := some now } }
    { result := .error {
        message := "Failed to publish scheduled post: " ++ msg
        postId := post1.id
        retryCount := newRetryCount }
      store := saveToStore store post2
      trace := evs ++ [Ev.save post2] }

/-- `processScheduledPost(post)` with the executor call abstracted: the
parameter `execResult` is the outcome of
`await AutopilotService.executeScheduledPost(post.id)` (`ok` or a thrown
error's message), the executor's own store writes being outside this
view.  Steps: read `retryCount`; if positive, sleep
`calculateExponentialBackoff(retryCount - 1)` (defaults 1000/30000, random
draw `r`); save status `processing`; invoke the executor; on success just
return; on error run the catch block. -/
def processScheduledPost (store : Store) (post : ScheduledPost)
    (execResult : Except String Unit) (r : ℚ) (now : ℤ) : ProcResult :=
  let retryCount := effectiveRetryCount post
  let preEvs : List Ev :=
    if retryCount > 0 then
      [Ev.sleep (calculateExponentialBackoff (retryCount - 1) 1000 30000 r)]
    else []
  let post1 := { post with status := .processing }
  let store1 := saveToStore store post1
  let evs := preEvs ++ [Ev.save post1, Ev.execCall post.id]
  match execResult with
  | .ok _ => { result := .ok (), store := store1, trace := evs }
  | .error msg => processCatch store1 post1 post.metadata retryCount msg now evs

/-- `processScheduledPost(post)` with the real executor inlined: the
executor call is `executeScheduledPost` on the current store, with `pub`
the Facebook publish outcome it would use. -/
def processScheduledPostFull (store : Store) (post : ScheduledPost)
    (pub : Except String String) (r : ℚ) (now : ℤ) : ProcResult :=
  let retryCount := effectiveRetryCount post
  let preEvs : List Ev :=
    if retryCount > 0 then
      [Ev.sleep (calculateExponentialBackoff (retryCount - 1) 1000 30000 r)]
    else []
  let post1 := { post with status := .processing }
  let store1 := saveToStore store post1
  let evs := preEvs ++ [Ev.save post1, Ev.execCall post.id]
  match executeScheduledPost store1 post.id pub now with
  | (.ok _, store2) => { result := .ok (), store := store2, trace := evs }
  | (.error msg, store2) =>
    processCatch store2 post1 post.metadata retryCount msg now evs

/-! ### Scheduler loop (`startScheduledPostsJob`, scheduler lines 14-57) -/

/-- The `for (const post of posts)` loop: each post is processed on the
current store with its own executor outcome (`outcomes` maps post id to
it); a thrown `ScheduledPostError` is caught and logged per item.  Returns
the final store and the ids attempted, in order. -/
def processBatch (store : Store) (posts : List ScheduledPost)
    (outcomes : ℕ → Except String Unit) (r : ℚ) (now : ℤ) : Store × List ℕ :=
  match posts with
  | [] => (store, [])
  | p :: rest =>
    let one := processScheduledPost store p (outcomes p.id) r now
    let next := processBatch one.store rest outcomes r now
    (next.1, p.id :: next.2)

/-- One tick of the cron handler.  `fetchFail` is `some msg` when the
`findAll` call rejects: the outer catch logs it and the tick ends with the
store untouched.  Otherwise the due batch is fetched and processed. -/
def runTick (store : Store) (fetchFail : Option String)
    (outcomes : ℕ → Except String Unit) (r : ℚ) (now : ℤ) : Store :=
  match fetchFail with
  | some _ => store
  | none => (processBatch store (findDue store now) outcomes r now).1

/-! ### Concrete fixtures used by witnesses and counterexamples -/

/-- An operation that rejects with `boom` on every invocation. -/
def fnBoom : ℕ → Except String Unit := fun _ => .error "boom"

/-- An operation that rejects with a DNS-lookup failure message (contains
`ENOTFOUND`) on every invocation. -/
def fnENF : ℕ → Except String Unit := fun _ => .error "getaddrinfo ENOTFOUND db"

/-- A fully configured Facebook account. -/
def acct : FacebookAccount := { pageId := some "pg", pageAccessToken := some "tok" }

/-- A fresh pending post, due at time 0, never retried. -/
def p0 : ScheduledPost :=
  { id := 1, scheduledFor := 0, status := .pending, metadata := none,
    errorMessage := none, publishedContentId := none, publishedAt := none,
    facebookAccount := acct }

/-- A post that already failed once (`retryCount = 1`), back in `pending`. -/
def pRetry : ScheduledPost :=
  { id := 2, scheduledFor := 0, status := .pending,
    metadata := some { retryCount := 1, lastError := some "boom",
                       lastRetryAt := some 1, finalError := none, failedAt := none },
    errorMessage := none, publishedContentId := none, publishedAt := none,
    facebookAccount := acct }

/-- A terminally failed post: `status = failed`, `retryCount = MAX_RETRIES`. -/
def pTerm : ScheduledPost :=
  { id := 3, scheduledFor := 0, status := .failed,
    metadata := some { retryCount := 3, lastError := some "boom",
                       lastRetryAt := some 1, finalError := some "boom",
                       failedAt := some 2 },
    errorMessage := some "boom", publishedContentId := none, publishedAt := none,
    facebookAccount := acct }

/-- A due pending post with the later `scheduledFor` of the pair below. -/
def q5 : ScheduledPost :=
  { id := 5, scheduledFor := 5, status := .pending, metadata := none,
    errorMessage := none, publishedContentId := none, publishedAt := none,
    facebookAccount := acct }

/-- A due pending post with the earlier `scheduledFor` of the pair. -/
def q3 : ScheduledPost :=
  { id := 6, scheduledFor := 3, status := .pending, metadata := none,
    errorMessage := none, publishedContentId := none, publishedAt := none,
    facebookAccount := acct }

/-! ## Theorems -/

/-- C5: `calculateExponentialBackoff(attempt, baseDelay, maxDelay)` returns
`min(baseDelay * 2^attempt, maxDelay)` plus a jitter that, for every random
draw `r ∈ [0, 1]`, lies in `[0, 10%]` of that capped value; in particular
the returned delay is never below the capped exponential value. -/
theorem c5_backoff_formula (a : ℕ) (b m r : ℚ)
    (hb : 0 ≤ b) (hm : 0 ≤ m) (hr0 : 0 ≤ r) (hr1 : r ≤ 1) :
    calculateExponentialBackoff a b m r
        = min (b * 2 ^ a) m + r * (1 / 10) * min (b * 2 ^ a) m ∧
      0 ≤ r * (1 / 10) * min (b * 2 ^ a) m ∧
      r * (1 / 10) * min (b * 2 ^ a) m ≤ (1 / 10) * min (b * 2 ^ a) m ∧
      min (b * 2 ^ a) m ≤ calculateExponentialBackoff a b m r := by
  have hcap : (0 : ℚ) ≤ min (b * 2 ^ a) m := le_min (by positivity) hm
  refine ⟨rfl, by positivity, ?_, ?_⟩
  · nlinarith [hcap]
  · unfold calculateExponentialBackoff
    nlinarith [hcap]

/-- Witness for C5 at `attempt = 3`, TS defaults, random draw `1/2`. -/
theorem c5_witness :
    calculateExponentialBackoff 3 1000 30000 (1 / 2)
        = min (1000 * 2 ^ 3) 30000 + (1 / 2) * (1 / 10) * min (1000 * 2 ^ 3) 30000 ∧
      0 ≤ (1 / 2 : ℚ) * (1 / 10) * min (1000 * 2 ^ 3) 30000 ∧
      (1 / 2 : ℚ) * (1 / 10) * min (1000 * 2 ^ 3) 30000
        ≤ (1 / 10) * min (1000 * 2 ^ 3) 30000 ∧
      min (1000 * 2 ^ 3) 30000 ≤ calculateExponentialBackoff 3 1000 30000 (1 / 2) :=
  c5_backoff_formula 3 1000 30000 (1 / 2)
    (by norm_num) (by norm_num) (by norm_num) (by norm_num)

/-- C4 counterexample: at the TS defaults (`baseDelay = 1000`,
`maxDelay = 30000`), with `a1 = 5 < a2 = 6` and jitter draw 0, the returned
delay is `30000 < 1000 * 2^5 = 32000`: the claimed lower bound
`delay(a2) ≥ baseDelay * 2^a1` fails once `baseDelay * 2^a1` exceeds
`maxDelay`. -/
theorem c4_counterexample :
    calculateExponentialBackoff 6 1000 30000 0 < 1000 * 2 ^ 5 := by
  norm_num [calculateExponentialBackoff, min_def]

/-- C4 (amended): for `a1 ≤ a2` the delay at `a2` is at least the *capped*
exponential `min(baseDelay * 2^a1, maxDelay)` for every jitter draw
`r ≥ 0`, and at most `maxDelay * 11/10` for every draw `r ≤ 1`. -/
theorem c4_backoff_bounds (a1 a2 : ℕ) (b m r : ℚ) (h12 : a1 ≤ a2)
    (hb : 0 ≤ b) (hm : 0 ≤ m) (hr0 : 0 ≤ r) (hr1 : r ≤ 1) :
    min (b * 2 ^ a1) m ≤ calculateExponentialBackoff a2 b m r ∧
      calculateExponentialBackoff a2 b m r ≤ m * (11 / 10) := by
  have hpow : b * 2 ^ a1 ≤ b * 2 ^ a2 :=
    mul_le_mul_of_nonneg_left (pow_le_pow_right₀ (by norm_num) h12) hb
  have hmono : min (b * 2 ^ a1) m ≤ min (b * 2 ^ a2) m := min_le_min hpow le_rfl
  have hcap2 : (0 : ℚ) ≤ min (b * 2 ^ a2) m := le_min (by positivity) hm
  have hle : min (b * 2 ^ a2) m ≤ m := min_le_right _ _
  unfold calculateExponentialBackoff
  constructor
  · nlinarith [hcap2]
  · nlinarith [hcap2]

/-- Witness for C4 (amended) at `a1 = 2`, `a2 = 4`, TS defaults, draw 1. -/
theorem c4_witness :
    min ((1000 : ℚ) * 2 ^ 2) 30000 ≤ calculateExponentialBackoff 4 1000 30000 1 ∧
      calculateExponentialBackoff 4 1000 30000 1 ≤ 30000 * (11 / 10) :=
  c4_backoff_bounds 2 4 1000 30000 1 (by norm_num)
    (by norm_num) (by norm_num) (by norm_num) (by norm_num)

/-- Helper: when `fn` rejects on every attempt and no rejection matches the
non-retriable guard, the loop consumes all its fuel, makes one invocation
per unit of fuel, and ends in the aggregate error carrying the message of
the last invocation. -/
theorem retryLoop_exhaust {T : Type} (fn : ℕ → Except String T) (maxA : ℤ)
    (label : String) (msgs : ℕ → String)
    (hfail : ∀ k, fn k = .error (msgs k))
    (hguard : ∀ k, nonRetriableAt (msgs k) k maxA = false) :
    ∀ (fuel attempt calls : ℕ) (lastErr : Option String),
      retryLoop fn maxA label (fuel + 1) attempt lastErr calls =
        (.exhausted label maxA (some (msgs (attempt + fuel))), calls + fuel + 1) := by
  intro fuel
  induction fuel with
  | zero =>
    intro attempt calls lastErr
    simp [retryLoop, hfail attempt, hguard attempt]
  | succ f ih =>
    intro attempt calls lastErr
    have step : retryLoop fn maxA label (f + 1 + 1) attempt lastErr calls =
        retryLoop fn maxA label (f + 1) (attempt + 1) (some (msgs attempt)) (calls + 1) := by
      simp [retryLoop, hfail attempt, hguard attempt]
    have h1 : attempt + 1 + f = attempt + (f + 1) := by omega
    have h2 : calls + 1 + f + 1 = calls + (f + 1) + 1 := by omega
    rw [step, ih (attempt + 1) (calls + 1) (some (msgs attempt)), h1, h2]

/-- C3: for `maxAttempts = n ≥ 1` and an operation rejecting on every
invocation with messages never matching the non-retriable guard,
`retryWithBackoff` invokes the operation exactly `n` times and rejects
with the aggregate error carrying the label, the attempt count `n`, and
the last invocation's error message. -/
theorem c3_retry_exhaustion {T : Type} (fn : ℕ → Except String T) (n : ℕ)
    (label : String) (msgs : ℕ → String) (hn : 1 ≤ n)
    (hfail : ∀ k, fn k = .error (msgs k))
    (hguard : ∀ k, nonRetriableAt (msgs k) k (n : ℤ) = false) :
    retryWithBackoff fn (n : ℤ) label =
      (.exhausted label (n : ℤ) (some (msgs (n - 1))), n) := by
  obtain ⟨f, rfl⟩ : ∃ f, n = f + 1 := ⟨n - 1, by omega⟩
  unfold retryWithBackoff
  have htn : ((f + 1 : ℕ) : ℤ).toNat = f + 1 := by simp
  rw [htn, retryLoop_exhaust fn _ label msgs hfail hguard f 0 0 none]
  simp

/-- Witness for C3: an operation always rejecting with `boom` under
`maxAttempts = 3` is invoked 3 times and ends in the aggregate error. -/
theorem c3_witness :
    retryWithBackoff fnBoom ((3 : ℕ) : ℤ) "op" =
      (.exhausted "op" ((3 : ℕ) : ℤ) (some "boom"), 3) :=
  c3_retry_exhaustion fnBoom 3 "op" (fun _ => "boom") (by norm_num)
    (fun _ => rfl)
    (by
      have h1 : strContains "boom" "ENOTFOUND" = false := by decide
      have h2 : strContains "boom" "ECONNREFUSED" = false := by decide
      intro k
      simp [nonRetriableAt, h1, h2])

/-- C2 counterexample: with `maxAttempts = 3`, an operation whose first
invocation rejects with a message containing `ENOTFOUND` is thrown
immediately after a single invocation — attempt index 0 is not the final
attempt, yet no retry happens, because JavaScript parses the guard
`A || B && C` as `A || (B && C)`: the `attempt === maxAttempts - 1`
conjunct applies only to `ECONNREFUSED`. -/
theorem c2_counterexample :
    retryWithBackoff fnENF 3 "Database connection" =
      (.thrown "getaddrinfo ENOTFOUND db", 1) := by
  decide

/-- C2 (amended): on any attempt with fuel remaining, an error containing
`ENOTFOUND` is thrown immediately; an error containing `ECONNREFUSED` but
not `ENOTFOUND` is thrown immediately exactly on the final attempt
(`attempt = maxAttempts - 1`) and retried on every other attempt; an error
containing neither is always retried. -/
theorem c2_nonretriable_guard {T : Type} (fn : ℕ → Except String T)
    (maxA : ℤ) (label : String) (fuel attempt calls : ℕ)
    (lastErr : Option String) (msg : String) (hf : fn attempt = .error msg) :
    (strContains msg "ENOTFOUND" = true →
      retryLoop fn maxA label (fuel + 1) attempt lastErr calls =
        (.thrown msg, calls + 1)) ∧
    (strContains msg "ENOTFOUND" = false → strContains msg "ECONNREFUSED" = true →
      ((attempt : ℤ) = maxA - 1 →
        retryLoop fn maxA label (fuel + 1) attempt lastErr calls =
          (.thrown msg, calls + 1)) ∧
      ((attempt : ℤ) ≠ maxA - 1 →
        retryLoop fn maxA label (fuel + 1) attempt lastErr calls =
          retryLoop fn maxA label fuel (attempt + 1) (some msg) (calls + 1))) ∧
    (strContains msg "ENOTFOUND" = false → strContains msg "ECONNREFUSED" = false →
      retryLoop fn maxA label (fuel + 1) attempt lastErr calls =
        retryLoop fn maxA label fuel (attempt + 1) (some msg) (calls + 1)) := by
  refine ⟨fun h1 => ?_, fun h1 h2 => ⟨fun h3 => ?_, fun h3 => ?_⟩,
    fun h1 h2 => ?_⟩ <;>
    simp_all [retryLoop, nonRetriableAt]

/-- Witness for C2 (amended): the `ENOTFOUND` branch at attempt 0 of 3. -/
theorem c2_witness :
    retryLoop fnENF 3 "Database connection" 3 0 none 0 =
      (.thrown "getaddrinfo ENOTFOUND db", 1) :=
  (c2_nonretriable_guard fnENF 3 "Database connection" 2 0 0 none
    "getaddrinfo ENOTFOUND db" rfl).1 (by decide)

/-- C10: with `maxAttempts ≤ 0` the loop body never runs: the operation is
never invoked (0 calls) and the aggregate error is thrown with the given
`maxAttempts` figure and no underlying error message. -/
theorem c10_nonpositive_attempts {T : Type} (fn : ℕ → Except String T)
    (maxA : ℤ) (label : String) (h : maxA ≤ 0) :
    retryWithBackoff fn maxA label = (.exhausted label maxA none, 0) := by
  unfold retryWithBackoff
  rw [Int.toNat_of_nonpos h]
  rfl

/-- Witness for C10 at `maxAttempts = -2`. -/
theorem c10_witness :
    retryWithBackoff fnBoom (-2) "op2" = (.exhausted "op2" (-2) none, 0) :=
  c10_nonpositive_attempts fnBoom (-2) "op2" (by norm_num)

/-- C7: the batch query selects a post only if its status is `pending`, or
its status is `failed` with effective retry count (`metadata?.retryCount`,
0 for a `null` blob) below `MAX_RETRIES`, and in either case
`scheduledFor ≤ now`; and a post whose status is `failed` with retry count
equal to `MAX_RETRIES` is never returned by any batch query on any store. -/
theorem c7_selection (p : ScheduledPost) (store : Store) (now : ℤ) :
    (p ∈ findDue store now →
      (p.status = .pending ∨
        (p.status = .failed ∧ effectiveRetryCount p < MAX_RETRIES)) ∧
      p.scheduledFor ≤ now) ∧
    (p.status = .failed → effectiveRetryCount p = MAX_RETRIES →
      p ∉ findDue store now) := by
  constructor
  · intro hmem
    have h1 : findDuePred now p = true :=
      List.of_mem_filter (List.mem_of_mem_take hmem)
    rcases hmeta : p.metadata with _ | m <;>
      simp_all [findDuePred, effectiveRetryCount, MAX_RETRIES, hmeta]
  · intro hst hrc hmem
    have h1 : findDuePred now p = true :=
      List.of_mem_filter (List.mem_of_mem_take hmem)
    rcases hmeta : p.metadata with _ | m <;>
      simp_all [findDuePred, effectiveRetryCount, MAX_RETRIES, hmeta]

/-- Witness for C7: the terminally failed fixture is excluded from a batch
over a store containing only it. -/
theorem c7_witness : pTerm ∉ findDue [pTerm] 0 :=
  (c7_selection pTerm [pTerm] 0).2 rfl rfl

/-- C9 counterexample: with a store holding two due pending posts whose
`scheduledFor` values are 5 then 3, the fetched batch comes back in store
order (5 before 3): the query has no `order` clause, so the batch is not
ordered by `scheduledFor` ascending. -/
theorem c9_counterexample :
    ¬ List.Pairwise (fun a b => a.scheduledFor ≤ b.scheduledFor)
      (findDue [q5, q3] 10) := by
  decide

/-- C9 (amended): each tick fetches at most 10 posts, and the batch is a
subsequence of the store (eligible rows in store order); no ordering by
`scheduledFor` is imposed. -/
theorem c9_batch_shape (store : Store) (now : ℤ) :
    (findDue store now).length ≤ 10 ∧ List.Sublist (findDue store now) store := by
  constructor
  · exact List.length_take_le 10 _
  · exact (List.take_sublist _ _).trans (List.filter_sublist _)

/-- C6: when the executor call fails with `retryCount + 1 < MAX_RETRIES`,
the processor's final write (the last `save` in its event trace) is the
post with `metadata.retryCount` incremented, `lastError` the error
message, `lastRetryAt` the current time and status back to `pending`; and
whenever the processor runs a post with `retryCount > 0`, its first event
is the suspension for `calculateExponentialBackoff(retryCount - 1)` (TS
defaults 1000/30000), so it precedes the executor invocation. -/
theorem c6_retry_transition (store : Store) (post : ScheduledPost)
    (msg : String) (r : ℚ) (now : ℤ) (ex : Except String Unit) :
    (effectiveRetryCount post + 1 < MAX_RETRIES →
      (processScheduledPost store post (.error msg) r now).trace.getLast? =
        some (Ev.save { post with
          status := .pending
          metadata := some {
            retryCount := effectiveRetryCount post + 1
            lastError := some msg
            lastRetryAt := some now
            finalError := post.metadata.bind (fun m => m.finalError)
            failedAt := post.metadata.bind (fun m => m.failedAt) } })) ∧
    (effectiveRetryCount post + 1 < MAX_RETRIES →
      ∀ q ∈ (processScheduledPost store post (.error msg) r now).store,
        q.id = post.id →
          q.status = .pending ∧
            q.metadata = some {
              retryCount := effectiveRetryCount post + 1
              lastError := some msg
              lastRetryAt := some now
              finalError := post.metadata.bind (fun m => m.finalError)
              failedAt := post.metadata.bind (fun m => m.failedAt) }) ∧
    (0 < effectiveRetryCount post →
      (processScheduledPost store post ex r now).trace.head? =
        some (Ev.sleep
          (calculateExponentialBackoff (effectiveRetryCount post - 1)
            1000 30000 r))) := by
  refine ⟨fun hrc => ?_, fun hrc => ?_, fun hpos => ?_⟩
  · simp [processScheduledPost, processCatch, hrc]
  · intro q hq hid
    simp only [processScheduledPost, processCatch, hrc, if_pos,
      saveToStore, List.mem_map] at hq
    obtain ⟨q0, _, hq0⟩ := hq
    by_cases hcase : q0.id = post.id <;> simp [hcase] at hq0 <;>
      first
        | (subst hq0; exact ⟨rfl, rfl⟩)
        | simp_all
  · by_cases hrc : effectiveRetryCount post + 1 < MAX_RETRIES <;>
      cases ex <;>
        simp [processScheduledPost, processCatch, hpos, hrc]

/-- Witness for C6 on the once-retried fixture (`retryCount = 1`): its
retry transition is persisted and its run starts with the backoff sleep. -/
theorem c6_witness :
    effectiveRetryCount pRetry + 1 < MAX_RETRIES ∧
      0 < effectiveRetryCount pRetry ∧
      (processScheduledPost [pRetry] pRetry (.error "boom") 0 5).trace.getLast? =
        some (Ev.save { pRetry with
          status := .pending
          metadata := some {
            retryCount := effectiveRetryCount pRetry + 1
            lastError := some "boom"
            lastRetryAt := some 5
            finalError := pRetry.metadata.bind (fun m => m.finalError)
            failedAt := pRetry.metadata.bind (fun m => m.failedAt) } }) ∧
      (processScheduledPost [pRetry] pRetry (.error "boom") 0 5).trace.head? =
        some (Ev.sleep (calculateExponentialBackoff 0 1000 30000 0)) :=
  ⟨by decide, by decide,
    (c6_retry_transition [pRetry] pRetry "boom" 0 5 (.error "boom")).1 (by decide),
    (c6_retry_transition [pRetry] pRetry "boom" 0 5 (.error "boom")).2.2 (by decide)⟩

/-- C8: the batch loop attempts every post of the batch in order no matter
which executor outcomes fail (a per-item failure never short-circuits the
remaining posts), and a tick whose fetch fails ends with the store
untouched — the failure never propagates past the tick. -/
theorem c8_batch_isolation (store : Store) (posts : List ScheduledPost)
    (outcomes : ℕ → Except String Unit) (r : ℚ) (now : ℤ) (msg : String) :
    (processBatch store posts outcomes r now).2 = posts.map (fun p => p.id) ∧
      runTick store (some msg) outcomes r now = store := by
  constructor
  · induction posts generalizing store with
    | nil => rfl
    | cons p rest ih => simp [processBatch, ih]
  · rfl

/-- C1 (evaluation at the failing input): a fresh pending post, due now,
with a fully configured account and a Facebook publish that would succeed.
The processor marks it `processing` and saves; `executeScheduledPost`
re-fetches the row, sees a non-`pending` status and returns `null` without
publishing or writing; the processor's success path writes nothing more.
The call completes normally with the stored status still `processing`, and
no later batch query ever selects the post again. -/
theorem c1_stuck_processing :
    (processScheduledPostFull [p0] p0 (.ok "fb_123") 0 0).result = .ok () ∧
      (processScheduledPostFull [p0] p0 (.ok "fb_123") 0 0).store.map
        (fun q => q.status) = [Status.processing] ∧
      findDue (processScheduledPostFull [p0] p0 (.ok "fb_123") 0 0).store
        1000000 = [] := by
  refine ⟨rfl, by decide, by decide⟩

end V8
